import Mathlib

/-!
Verification of the sequential multi-agent pipeline web app (`src/app.py`).

The file shallowly embeds the program:

* the module-level cache (`last_result`, `last_updated`) and
  `generate_recommendations` (app.py lines 96-109);
* the Flask `index` request handler (app.py lines 111-200);
* the custom DuckDuckGo search tool `MyCustomDuckDuckGoTool._run`
  (app.py lines 24-31);
* a fine-grained interleaving model of two concurrent requests running
  `generate_recommendations`, used for the concurrency claims (the Python
  code takes no lock, so the statement granularity is individual bytecode
  effects: entering `kickoff`, `kickoff` returning, the two global writes);
* the sequential pipeline executor, dependency-order validation and the
  agent reasoning loop.  These live in the external `crewai` library, whose
  code is not part of this repository; they are modelled from the spec
  (sections 4.3, 4.4 and 7) and each such definition says so in its doc
  comment.

Python exceptions are modelled as `Except String` values (the `String` is
the exception's message, `str(e)`); timestamps are opaque strings (the
formatted value of `datetime.now().strftime(...)`).
-/

/-- The module-level cache of `app.py`: the globals `last_result` and
`last_updated` (lines 98-99).  Both start as `None`, modelled by `none`. -/
structure CacheState where
  last_result : Option String
  last_updated : Option String
  deriving Repr, DecidableEq

/-- The initial state of the globals: `last_result = None`,
`last_updated = None` (app.py lines 98-99). -/
def initialCache : CacheState := ⟨none, none⟩

/-- `generate_recommendations` (app.py lines 101-109), embedded over an
explicit cache state.  The outcome of `investment_crew.kickoff()` is passed
in as `kick` (`Except.ok r` means `kickoff` returned a value whose `str()`
is `r`; `Except.error e` means it raised an exception with message `e`),
and the formatted current time as `now`.  On success the function sets
`last_result = str(result)` and `last_updated = now` and returns
`last_result`; on exception it re-raises (`raise e`) without touching the
globals.  The returned pair is (state of the globals after the call,
returned value or re-raised exception). -/
def generate_recommendations (s : CacheState) (kick : Except String String)
    (now : String) : CacheState × Except String String :=
  match kick with
  | Except.ok result => (⟨some result, some now⟩, Except.ok result)
  | Except.error e => (s, Except.error e)

/-- HTTP method of a request to `/` (app.py line 111 allows GET and POST). -/
inductive Method where
  | get
  | post
  deriving Repr, DecidableEq

/-- What the `index` handler produces for one request. -/
inductive HttpResponse where
  /-- The main template was rendered with `result_html` and the
  `last_updated` shown in the timestamp line (app.py lines 147-200). -/
  | page (result_html : String) (last_updated : Option String)
  /-- The error template was rendered with `error = str(e)`
  (app.py lines 119-136). -/
  | errorPage (error : String)
  /-- An exception escaped the handler uncaught: `index` itself produced
  no response (the surrounding framework turns this into a 500). -/
  | unhandled (error : String)
  deriving Repr, DecidableEq

/-- The `index` request handler (app.py lines 111-200), embedded over an
explicit cache state.  `md` is the external `markdown2.markdown`
conversion, `refreshInForm` is whether `'refresh' in request.form`, `kick`
and `now` are as in `generate_recommendations`.  Returns the state of the
globals after the request, the response, and how many times the pipeline
(`investment_crew.kickoff`, via `generate_recommendations`) was started
while serving the request.

Faithful to the source: only the POST-with-refresh branch wraps
`generate_recommendations()` in `try/except` (lines 115-136); the other
branch (GET, or POST without a refresh field) calls it bare when
`last_result is None` (lines 137-141), so an exception there escapes the
handler. -/
def index (md : String → String) (method : Method) (refreshInForm : Bool)
    (s : CacheState) (kick : Except String String) (now : String) :
    CacheState × HttpResponse × Nat :=
  if method = Method.post ∧ refreshInForm then
    match generate_recommendations s kick now with
    | (s₁, Except.ok result_str) =>
        (s₁, HttpResponse.page (md result_str) s₁.last_updated, 1)
    | (s₁, Except.error e) => (s₁, HttpResponse.errorPage e, 1)
  else
    match s.last_result with
    | none =>
        match generate_recommendations s kick now with
        | (s₁, Except.ok result_str) =>
            (s₁, HttpResponse.page (md result_str) s₁.last_updated, 1)
        | (s₁, Except.error e) => (s₁, HttpResponse.unhandled e, 1)
    | some result_str => (s, HttpResponse.page (md result_str) s.last_updated, 0)

/-- One externally triggered event in the program's lifetime: a request
served by `index`.  (`generate_recommendations` is reachable only through
`index`; no other code assigns the globals.) -/
structure RequestEvent where
  md : String → String
  method : Method
  refreshInForm : Bool
  kick : Except String String
  now : String

/-- The cache state after serving one request. -/
def stepCache (s : CacheState) (ev : RequestEvent) : CacheState :=
  (index ev.md ev.method ev.refreshInForm s ev.kick ev.now).1

/-- The cache state after serving a sequence of requests, starting from the
initial (both globals `None`) state. -/
def cacheAfter (evs : List RequestEvent) : CacheState :=
  evs.foldl stepCache initialCache

/-! ### Fine-grained concurrency model

`app.run` serves requests on threads sharing the module globals, and
`generate_recommendations` (app.py lines 101-109) contains no lock of any
kind.  To reason about two concurrent refresh triggers we split the body of
`generate_recommendations` into its atomic effects, exactly as they occur
in the source, for a run in which `kickoff` succeeds:

1. enter `investment_crew.kickoff()` — from here the pipeline is in flight;
2. `kickoff` returns `result`;
3. `last_result = str(result)`;
4. `last_updated = datetime.now().strftime(...)`.

A schedule is a list of thread ids; the scheduler runs one atomic step of
the named thread at a time. -/

/-- Program counter of one thread executing the body of
`generate_recommendations`. -/
inductive ThreadPC where
  /-- about to call `investment_crew.kickoff()` (app.py line 104) -/
  | start
  /-- inside `investment_crew.kickoff()`: the pipeline is in flight -/
  | inKickoff
  /-- `kickoff` returned; about to assign `last_result` (line 105) -/
  | gotResult
  /-- `last_result` assigned; about to assign `last_updated` (line 106) -/
  | wroteResult
  /-- finished -/
  | done
  deriving Repr, DecidableEq

/-- Shared-memory state of two threads each running
`generate_recommendations` concurrently. -/
structure ConcState where
  cache : CacheState
  pc : Fin 2 → ThreadPC

/-- The initial concurrent state: both threads about to run
`generate_recommendations`, globals as given. -/
def concInit (c : CacheState) : ConcState :=
  ⟨c, fun _ => ThreadPC.start⟩

/-- One atomic step of thread `t`.  `result t` and `now t` are the value
`kickoff` returns to thread `t` and the timestamp it formats.  There is no
lock in the source, so every step is always enabled. -/
def concStep (result now : Fin 2 → String) (s : ConcState) (t : Fin 2) :
    ConcState :=
  match s.pc t with
  | ThreadPC.start => { s with pc := Function.update s.pc t ThreadPC.inKickoff }
  | ThreadPC.inKickoff => { s with pc := Function.update s.pc t ThreadPC.gotResult }
  | ThreadPC.gotResult =>
      { cache := { s.cache with last_result := some (result t) },
        pc := Function.update s.pc t ThreadPC.wroteResult }
  | ThreadPC.wroteResult =>
      { cache := { s.cache with last_updated := some (now t) },
        pc := Function.update s.pc t ThreadPC.done }
  | ThreadPC.done => s

/-- The sequence of states visited when running a schedule (thread ids, in
order) from the initial concurrent state, initial state included. -/
def concTrace (result now : Fin 2 → String) (sched : List (Fin 2)) :
    List ConcState :=
  sched.foldl (fun states t =>
    states ++ [concStep result now (states.getLastD (concInit initialCache)) t])
    [concInit initialCache]

/-- Whether both threads' pipeline executions (`kickoff` calls) are in
flight in state `s`. -/
def bothInFlight (s : ConcState) : Bool :=
  decide (s.pc 0 = ThreadPC.inKickoff) && decide (s.pc 1 = ThreadPC.inKickoff)

/-- Whether, under the given schedule, some reachable state has both
pipeline executions in flight at once. -/
def bothEverInFlight (result now : Fin 2 → String) (sched : List (Fin 2)) :
    Bool :=
  (concTrace result now sched).any bothInFlight

/-- `MyCustomDuckDuckGoTool._run` (app.py lines 28-31): construct the
underlying search runner, invoke it on the query, and return the response.
The underlying `DuckDuckGoSearchRun().invoke` is passed in as `invoke`
(`Except.error c` models it raising a transport/timeout exception with
cause `c`).  There is no `try/except` and no post-processing in the
source: an exception propagates to the caller as-is, and a successful
response is returned unchanged. -/
def MyCustomDuckDuckGoTool_run (invoke : String → Except String String)
    (query : String) : Except String String :=
  invoke query

/-! ### The pipeline: tasks, sequential execution, validation

The three `Task`s and the `Crew` with `Process.sequential` are configured
in app.py lines 64-91.  Task dependency lists (`context=[...]` in the
source) reference earlier task objects; here a task list is indexed by
position and a dependency is the index of the referenced task. -/

/-- A pipeline task as configured in app.py: `description`,
`expected_output`, and the dependency list (`context`), given as indices
into the crew's task list. -/
structure PTask where
  description : String
  expected_output : String
  deps : List Nat
  deriving Repr, DecidableEq, Inhabited

/-- `market_research_task` (app.py lines 65-69): no `context`. -/
def market_research_task : PTask where
  description := "Research current stock market trends and identify sectors with strong growth potential for the current year."
  expected_output := "A list of 5-7 promising sectors with explanations of why they have growth potential this year"
  deps := []

/-- `stock_selection_task` (app.py lines 71-76):
`context=[market_research_task]`. -/
def stock_selection_task : PTask where
  description := "Based on the sector research, identify the top 10 stocks to invest in this year."
  expected_output := "A list of 10 stocks with their basic information and investment rationale"
  deps := [0]

/-- `investment_report_task` (app.py lines 78-83):
`context=[market_research_task, stock_selection_task]`. -/
def investment_report_task : PTask where
  description := "Create a comprehensive investment report presenting the top 10 stocks to invest in this year."
  expected_output := "A well-formatted investment report in markdown with detailed analysis of each recommended stock"
  deps := [0, 1]

/-- The crew's task list, in declaration order (app.py line 88). -/
def investmentTasks : List PTask :=
  [market_research_task, stock_selection_task, investment_report_task]

/-- Modelled from the spec: how one dependency contributes to a downstream
task's context — the already-recorded output `out` of the source task,
"prefixed by its source Task's description" (spec section 4.4, step 1).
The executor that builds contexts is `crewai`'s, not part of this
repository's sources. -/
def contextEntry (sourceDescription out : String) : String :=
  sourceDescription ++ "\n" ++ out ++ "\n"

/-- Modelled from the spec: a task's context is the concatenation of the
context entries of the tasks in its `deps` list, in the order listed (spec
section 4.4, step 1).  `outs` are the outputs recorded so far, indexed by
task position. -/
def buildContext (tasks : List PTask) (outs : List String) : List Nat → String
  | [] => ""
  | j :: rest =>
      contextEntry ((tasks.getD j default).description) (outs.getD j "") ++
        buildContext tasks outs rest

/-- Modelled from the spec: the outputs of the first `n` tasks under the
sequential executor (spec section 4.4, steps 1-3; `crewai`'s
`Process.sequential` executor is not part of this repository's sources).
`exec i ctx` is the text produced by task `i`'s agent when run with context
`ctx` (the reasoning loop of section 4.3, abstracted to a function).  Task
`n` runs after tasks `0..n-1` and its context is built from their recorded
outputs. -/
def runOutputs (exec : Nat → String → String) (tasks : List PTask) :
    Nat → List String
  | 0 => []
  | n + 1 =>
      let outs := runOutputs exec tasks n
      outs ++ [exec n (buildContext tasks outs ((tasks.getD n default).deps))]

/-- The context supplied to task `i` by the sequential executor. -/
def taskContext (exec : Nat → String → String) (tasks : List PTask)
    (i : Nat) : String :=
  buildContext tasks (runOutputs exec tasks i) ((tasks.getD i default).deps)

/-- The output recorded for task `i` by the sequential executor. -/
def taskOutput (exec : Nat → String → String) (tasks : List PTask)
    (i : Nat) : String :=
  exec i (taskContext exec tasks i)

/-- Modelled from the spec: the execution trace of the whole pipeline — for
each executed task, in execution order, its position and the context it was
run with (spec section 4.4: tasks run once each, in declaration order). -/
def runTrace (exec : Nat → String → String) (tasks : List PTask) :
    Nat → List (Nat × String)
  | 0 => []
  | n + 1 => runTrace exec tasks n ++ [(n, taskContext exec tasks n)]

/-- Modelled from the spec: the pipeline's final result, `str()` of which
`generate_recommendations` stores — the last task's output (spec section
4.4, step 5: on completion of every task, the result text is the last
task's output). -/
def crewFinalOutput (exec : Nat → String → String) (tasks : List PTask) :
    String :=
  (runOutputs exec tasks tasks.length).getLastD ""

/-- Modelled from the spec: the configuration-time dependency-order check —
every task's dependency list may contain only tasks appearing earlier in
the sequence (spec sections 4.4 and 8; the check itself is not part of this
repository's sources). -/
def depsOk (tasks : List PTask) : Bool :=
  List.range tasks.length |>.all fun i =>
    (tasks.getD i default).deps.all fun j => j < i

/-- Modelled from the spec: the startup-time validation error taxonomy
relevant to pipeline configuration (spec section 7). -/
inductive CrewConfigError where
  | dependencyOrderError
  deriving Repr, DecidableEq

/-- Modelled from the spec: crew startup — validate the dependency order at
configuration time, rejecting with `DependencyOrderError` before any
execution occurs; only a valid configuration is executed (spec sections 4.4
and 7). -/
def crewStart (exec : Nat → String → String) (tasks : List PTask) :
    Except CrewConfigError (List String) :=
  if depsOk tasks then Except.ok (runOutputs exec tasks tasks.length)
  else Except.error CrewConfigError.dependencyOrderError

/-! ### The agent reasoning loop

The reasoning loop lives inside `crewai`'s `Agent` execution machinery and
is not part of this repository's sources; it is modelled from spec
sections 4.2, 4.3 and 7. -/

/-- Modelled from the spec: a language-model response — either a terminal
`FinalAnswer{text}` or a `ToolCall{toolName, query}` request (spec
section 4.2). -/
inductive LMResponse where
  | finalAnswer (text : String)
  | toolCall (toolName query : String)
  deriving Repr, DecidableEq

/-- Modelled from the spec: the error taxonomy of an agent execution (spec
section 7) — tool transport failure, model transport/protocol failure, a
tool request for a tool not granted to the agent, and a runaway tool-call
loop. -/
inductive AgentError where
  | toolError (cause : String)
  | modelError (cause : String)
  | unknownToolError (toolName : String)
  | reasoningLimitExceeded
  deriving Repr, DecidableEq

/-- Modelled from the spec: a named tool capability with its
`run(query) -> text` contract, which may fail with a `ToolError` cause
(spec sections 3 and 4.1). -/
structure MTool where
  name : String
  run : String → Except String String

/-- Modelled from the spec: the agent's bounded reasoning loop (spec
section 4.3; `crewai`'s agent executor is not part of this repository's
sources).  `model transcript` is the language model called on the running
transcript; `rounds` is the remaining budget of tool-call rounds.  On
`FinalAnswer` the loop returns the text; on `ToolCall` the named tool is
looked up in the agent's tool set (failing with `UnknownToolError` if
absent), run (failing with `ToolError` on transport failure), and its
result is appended to the transcript before calling the model again.
Exceeding the round budget fails with `ReasoningLimitExceeded`.  The
definition is structurally recursive on the budget, so every agent
execution terminates. -/
def reasoningLoop (model : List String → Except String LMResponse)
    (tools : List MTool) (transcript : List String) :
    Nat → Except AgentError String
  | 0 => Except.error AgentError.reasoningLimitExceeded
  | rounds + 1 =>
      match model transcript with
      | Except.error c => Except.error (AgentError.modelError c)
      | Except.ok (LMResponse.finalAnswer text) => Except.ok text
      | Except.ok (LMResponse.toolCall toolName query) =>
          match tools.find? (fun tool => tool.name = toolName) with
          | none => Except.error (AgentError.unknownToolError toolName)
          | some tool =>
              match tool.run query with
              | Except.error c => Except.error (AgentError.toolError c)
              | Except.ok res =>
                  reasoningLoop model tools (transcript ++ [res]) rounds

/-! ### Theorems -/

/-- Every request either leaves the globals exactly as they were, or (via a
successful `generate_recommendations`) sets both of them at once. -/
theorem stepCache_eq_or_both_set (s : CacheState) (ev : RequestEvent) :
    stepCache s ev = s ∨ ∃ r n, stepCache s ev = ⟨some r, some n⟩ := by
  rcases ev with ⟨md, method, refreshInForm, kick, now⟩
  rcases kick with e | r
  · rcases hs : s.last_result with _ | v <;>
      simp [stepCache, index, generate_recommendations, hs] <;>
      (left; split <;> rfl)
  · rcases hs : s.last_result with _ | v
    · by_cases hp : method = Method.post ∧ refreshInForm = true <;>
        simp [stepCache, index, generate_recommendations, hs, hp]
    · by_cases hp : method = Method.post ∧ refreshInForm = true
      · simp [stepCache, index, generate_recommendations, hs, hp]
      · simp [stepCache, index, generate_recommendations, hs, hp]

/-- C1: if the crew kickoff raises, `generate_recommendations` leaves
`last_result` and `last_updated` exactly as they were before the call and
re-raises the same exception; only a successful run writes the cache. -/
theorem generate_recommendations_failure_keeps_cache
    (s : CacheState) (kick : Except String String) (now e : String)
    (h : kick = Except.error e) :
    generate_recommendations s kick now = (s, Except.error e) := by
  subst h; rfl

/-- Witness for C1 at a concrete pre-populated cache and failing kickoff. -/
theorem generate_recommendations_failure_keeps_cache_witness :
    generate_recommendations ⟨some "old report", some "2024-01-01 00:00:00"⟩
        (Except.error "boom") "2024-01-02 00:00:00" =
      (⟨some "old report", some "2024-01-01 00:00:00"⟩, Except.error "boom") :=
  generate_recommendations_failure_keeps_cache _ _ _ _ rfl

/-- C8: on a fully successful run, `generate_recommendations` stores the
pipeline's result text (`str(result)`, which for the sequential pipeline is
the final task's output) as `last_result`, stores the completion time as
`last_updated`, and returns exactly the stored text. -/
theorem generate_recommendations_success_stores_final_output
    (s : CacheState) (now : String) (exec : Nat → String → String) :
    generate_recommendations s
        (Except.ok (crewFinalOutput exec investmentTasks)) now =
      (⟨some (crewFinalOutput exec investmentTasks), some now⟩,
        Except.ok (crewFinalOutput exec investmentTasks)) ∧
    crewFinalOutput exec investmentTasks = taskOutput exec investmentTasks 2 :=
  ⟨rfl, rfl⟩

/-- Helper for C10: serving any sequence of requests from a state whose
fields are `none` together or set together preserves that relationship. -/
theorem foldlStepCache_inv :
    ∀ (evs : List RequestEvent) (s : CacheState),
      (s.last_result = none ↔ s.last_updated = none) →
      ((evs.foldl stepCache s).last_result = none ↔
        (evs.foldl stepCache s).last_updated = none)
  | [], s, h => h
  | ev :: evs, s, h => by
      refine foldlStepCache_inv evs (stepCache s ev) ?_
      rcases stepCache_eq_or_both_set s ev with heq | ⟨r, n, heq⟩ <;> simp [heq, h]

/-- Helper for C10: once a global is set to a non-`None` value, no later
request resets it to `None`. -/
theorem foldlStepCache_stays_set :
    ∀ (evs : List RequestEvent) (s : CacheState),
      (s.last_result ≠ none → (evs.foldl stepCache s).last_result ≠ none) ∧
      (s.last_updated ≠ none → (evs.foldl stepCache s).last_updated ≠ none)
  | [], s => ⟨fun h => h, fun h => h⟩
  | ev :: evs, s => by
      have ih := foldlStepCache_stays_set evs (stepCache s ev)
      constructor <;> intro h
      · refine ih.1 ?_
        rcases stepCache_eq_or_both_set s ev with heq | ⟨r, n, heq⟩ <;> simp [heq, h]
      · refine ih.2 ?_
        rcases stepCache_eq_or_both_set s ev with heq | ⟨r, n, heq⟩ <;> simp [heq, h]

/-- C10: after any sequence of requests starting from the initial state,
`last_result` is `None` exactly when `last_updated` is `None` (they are
only ever assigned together, by a successful `generate_recommendations`),
and once set, neither is ever reset to `None` by later requests. -/
theorem cache_globals_none_together (evs : List RequestEvent) :
    ((cacheAfter evs).last_result = none ↔ (cacheAfter evs).last_updated = none) ∧
    (∀ more, (cacheAfter evs).last_result ≠ none →
      (cacheAfter (evs ++ more)).last_result ≠ none) ∧
    (∀ more, (cacheAfter evs).last_updated ≠ none →
      (cacheAfter (evs ++ more)).last_updated ≠ none) := by
  refine ⟨foldlStepCache_inv evs initialCache (by simp [initialCache]), ?_, ?_⟩ <;>
    intro more h <;> rw [cacheAfter, List.foldl_append]
  · exact (foldlStepCache_stays_set more (cacheAfter evs)).1 h
  · exact (foldlStepCache_stays_set more (cacheAfter evs)).2 h

/-- Witness for C10 at a concrete request sequence: one successful
POST-refresh sets both globals, and they stay set across a further request. -/
theorem cache_globals_none_together_witness :
    ((cacheAfter [⟨fun t => t, Method.post, true, Except.ok "report", "t1"⟩]).last_result = none ↔
      (cacheAfter [⟨fun t => t, Method.post, true, Except.ok "report", "t1"⟩]).last_updated = none) ∧
    (cacheAfter ([⟨fun t => t, Method.post, true, Except.ok "report", "t1"⟩] ++
      [⟨fun t => t, Method.get, false, Except.error "down", "t2"⟩])).last_result ≠ none := by
  refine ⟨(cache_globals_none_together _).1, ?_⟩
  exact (cache_globals_none_together
      [⟨fun t => t, Method.post, true, Except.ok "report", "t1"⟩]).2.1
    [⟨fun t => t, Method.get, false, Except.error "down", "t2"⟩] (by simp [cacheAfter, stepCache, index, generate_recommendations])

/-- C4: a GET request (whatever the form contains) renders the cached
result without starting the pipeline when one is present; with an empty
cache it starts exactly one synchronous refresh and, when that refresh
succeeds, renders the refreshed result. -/
theorem index_get_renders_cache_or_refreshes_once
    (md : String → String) (refreshInForm : Bool) (s : CacheState)
    (kick : Except String String) (now : String) :
    (∀ r, s.last_result = some r →
      index md Method.get refreshInForm s kick now =
        (s, HttpResponse.page (md r) s.last_updated, 0)) ∧
    (s.last_result = none →
      (index md Method.get refreshInForm s kick now).2.2 = 1 ∧
      ∀ r, kick = Except.ok r →
        index md Method.get refreshInForm s kick now =
          (⟨some r, some now⟩, HttpResponse.page (md r) (some now), 1)) := by
  constructor
  · intro r hr
    simp [index, hr]
  · intro hs
    constructor
    · rcases kick with e | r <;> simp [index, generate_recommendations, hs]
    · intro r hr
      subst hr
      simp [index, generate_recommendations, hs]

/-- Witness for C4: a concrete GET against a populated cache renders the
cached text without a pipeline run, and a concrete GET against the empty
cache runs the pipeline once and renders its output. -/
theorem index_get_renders_cache_or_refreshes_once_witness :
    index (fun t => t) Method.get false ⟨some "cached report", some "t0"⟩
        (Except.ok "fresh report") "t1" =
      (⟨some "cached report", some "t0"⟩,
        HttpResponse.page "cached report" (some "t0"), 0) ∧
    index (fun t => t) Method.get false initialCache
        (Except.ok "fresh report") "t1" =
      (⟨some "fresh report", some "t1"⟩,
        HttpResponse.page "fresh report" (some "t1"), 1) :=
  ⟨(index_get_renders_cache_or_refreshes_once (fun t => t) false
      ⟨some "cached report", some "t0"⟩ (Except.ok "fresh report") "t1").1
      "cached report" rfl,
   ((index_get_renders_cache_or_refreshes_once (fun t => t) false
      initialCache (Except.ok "fresh report") "t1").2 rfl).2
      "fresh report" rfl⟩

/-- C3 counterexample: on a GET request with an empty cache — a request
path that triggers a refresh — a failing refresh is not reported to the
user at all: `index` has no `try/except` around the
`generate_recommendations()` call on that path (app.py line 139), so the
exception escapes the handler instead of rendering the error page the
claim requires. -/
theorem index_get_empty_cache_failure_escapes :
    index (fun t => t) Method.get false initialCache
        (Except.error "model transport failure") "t1" =
      (initialCache,
        HttpResponse.unhandled "model transport failure", 1) := rfl

/-- C3 amended: only on the POST-with-refresh path is a failed refresh
caught and reported via the error page, which carries the underlying error
message (`str(e)`) and leaves the cached globals intact; on a GET with an
empty cache the failure escapes the handler uncaught. -/
theorem index_refresh_failure_reporting
    (md : String → String) (refreshInForm : Bool) (s : CacheState)
    (e now : String) :
    index md Method.post true s (Except.error e) now =
      (s, HttpResponse.errorPage e, 1) ∧
    (s.last_result = none →
      index md Method.get refreshInForm s (Except.error e) now =
        (s, HttpResponse.unhandled e, 1)) := by
  constructor
  · simp [index, generate_recommendations]
  · intro hs
    simp [index, generate_recommendations, hs]

/-- Witness for C3's amended statement at a concrete failing refresh. -/
theorem index_refresh_failure_reporting_witness :
    index (fun t => t) Method.post true ⟨some "old", some "t0"⟩
        (Except.error "boom") "t1" =
      (⟨some "old", some "t0"⟩, HttpResponse.errorPage "boom", 1) ∧
    index (fun t => t) Method.get false initialCache
        (Except.error "boom") "t1" =
      (initialCache, HttpResponse.unhandled "boom", 1) :=
  ⟨(index_refresh_failure_reporting (fun t => t) false
      ⟨some "old", some "t0"⟩ "boom" "t1").1,
   (index_refresh_failure_reporting (fun t => t) false
      initialCache "boom" "t1").2 rfl⟩

/-- C9: `MyCustomDuckDuckGoTool._run` propagates a transport/timeout
failure of the underlying search invocation as an exception with the same
cause (it never swallows the failure into an empty success), and on
success returns the underlying search result text unchanged; in
particular an empty successful result can only come from the underlying
search itself. -/
theorem MyCustomDuckDuckGoTool_run_propagates
    (invoke : String → Except String String) (query : String) :
    (∀ c, invoke query = Except.error c →
      MyCustomDuckDuckGoTool_run invoke query = Except.error c) ∧
    (∀ s, invoke query = Except.ok s →
      MyCustomDuckDuckGoTool_run invoke query = Except.ok s) ∧
    (MyCustomDuckDuckGoTool_run invoke query = Except.ok "" →
      invoke query = Except.ok "") := by
  refine ⟨fun c hc => ?_, fun s hs => ?_, fun h => ?_⟩ <;>
    simpa [MyCustomDuckDuckGoTool_run] using ‹_›

/-- Witness for C9 with a concrete failing and a concrete succeeding
search invocation. -/
theorem MyCustomDuckDuckGoTool_run_propagates_witness :
    MyCustomDuckDuckGoTool_run (fun _ => Except.error "timeout") "nvidia" =
      Except.error "timeout" ∧
    MyCustomDuckDuckGoTool_run (fun q => Except.ok ("results for " ++ q))
        "nvidia" =
      Except.ok "results for nvidia" :=
  ⟨(MyCustomDuckDuckGoTool_run_propagates (fun _ => Except.error "timeout")
      "nvidia").1 "timeout" rfl,
   (MyCustomDuckDuckGoTool_run_propagates
      (fun q => Except.ok ("results for " ++ q)) "nvidia").2.1
      "results for nvidia" rfl⟩

/-- C2 counterexample: under the schedule that lets thread 0 enter
`investment_crew.kickoff()` and then lets thread 1 enter it too — an
interleaving nothing in the code prevents, since `generate_recommendations`
takes no lock — a reachable state has both pipeline executions in flight at
once, contradicting the claimed mutual exclusion. -/
theorem two_refreshes_both_in_flight :
    bothEverInFlight (fun _ => "report") (fun _ => "t") [0, 1] = true := by
  decide

/-- C2 amended: nothing serializes concurrent refresh triggers — there is
no lock in the code, and there exists an interleaving of two concurrent
`generate_recommendations` calls in which both pipeline executions are in
flight at the same time (so concurrent refreshes can both run the
externally-billed pipeline and race on the cache writes). -/
theorem no_refresh_mutual_exclusion :
    ∃ (result now : Fin 2 → String) (sched : List (Fin 2)),
      bothEverInFlight result now sched = true :=
  ⟨fun _ => "report", fun _ => "t", [0, 1], by decide⟩

/-- Helper: `String.join` of a cons. -/
theorem string_join_cons (a : String) (l : List String) :
    String.join (a :: l) = a ++ String.join l := by
  apply String.ext
  simp [String.data_append]

/-- Helper: the executor records one output per executed task. -/
theorem length_runOutputs (exec : Nat → String → String) (tasks : List PTask) :
    ∀ n, (runOutputs exec tasks n).length = n
  | 0 => rfl
  | n + 1 => by
      rw [runOutputs]
      simp [length_runOutputs exec tasks n]

/-- Helper: within the first `n` outputs, position `j < n` holds exactly
the output recorded for task `j`. -/
theorem getD_runOutputs (exec : Nat → String → String) (tasks : List PTask) :
    ∀ n j, j < n →
      (runOutputs exec tasks n).getD j "" = taskOutput exec tasks j
  | n + 1, j, h => by
      rw [runOutputs]
      rcases Nat.lt_or_ge j n with h' | h'
      · rw [List.getD_append _ _ _ _ (by rw [length_runOutputs]; exact h')]
        exact getD_runOutputs exec tasks n j h'
      · have hj : j = n := Nat.le_antisymm (Nat.lt_succ_iff.mp h) h'
        subst hj
        rw [List.getD_append_right _ _ _ _ (by rw [length_runOutputs])]
        simp [length_runOutputs, taskOutput, taskContext]

/-- Helper: `buildContext` is the join of the per-dependency context
entries, in dependency-list order. -/
theorem buildContext_eq_join (tasks : List PTask) (outs : List String) :
    ∀ deps : List Nat,
      buildContext tasks outs deps =
        String.join (deps.map fun j =>
          contextEntry ((tasks.getD j default).description) (outs.getD j ""))
  | [] => rfl
  | j :: rest => by
      rw [List.map_cons, string_join_cons, buildContext,
        buildContext_eq_join tasks outs rest]

/-- Helper: the sequential executor runs tasks in declaration order. -/
theorem runTrace_order (exec : Nat → String → String) (tasks : List PTask) :
    ∀ n, (runTrace exec tasks n).map Prod.fst = List.range n
  | 0 => rfl
  | n + 1 => by
      rw [runTrace, List.map_append, runTrace_order exec tasks n,
        List.range_succ]
      rfl

/-- Helper: the configuration check accepts exactly the task lists whose
dependency lists reference only earlier tasks. -/
theorem depsOk_iff (tasks : List PTask) :
    depsOk tasks = true ↔
      ∀ i, i < tasks.length → ∀ j ∈ (tasks.getD i default).deps, j < i := by
  simp [depsOk, List.all_eq_true, List.mem_range]

/-- C5: for a validly configured pipeline, task execution order equals
declaration order, and each task's context is the concatenation, in
declared dependency order, of its dependencies' recorded outputs, each
prefixed by the source task's description; in particular the third
configured task (`investment_report_task`) receives the first task's
output followed by the second task's output. -/
theorem pipeline_order_and_context (exec : Nat → String → String)
    (tasks : List PTask) (i : Nat)
    (hv : depsOk tasks = true) (hi : i < tasks.length) :
    (runTrace exec tasks tasks.length).map Prod.fst =
      List.range tasks.length ∧
    taskContext exec tasks i =
      String.join (((tasks.getD i default).deps).map fun j =>
        contextEntry ((tasks.getD j default).description)
          (taskOutput exec tasks j)) ∧
    taskContext exec investmentTasks 2 =
      contextEntry market_research_task.description
          (taskOutput exec investmentTasks 0) ++
        contextEntry stock_selection_task.description
          (taskOutput exec investmentTasks 1) := by
  refine ⟨runTrace_order exec tasks _, ?_, ?_⟩
  · rw [taskContext, buildContext_eq_join]
    congr 1
    refine List.map_congr_left fun j hj => ?_
    rw [getD_runOutputs exec tasks i j ((depsOk_iff tasks).mp hv i hi j hj)]
  · calc
      taskContext exec investmentTasks 2 =
          contextEntry market_research_task.description
              (taskOutput exec investmentTasks 0) ++
            (contextEntry stock_selection_task.description
                (taskOutput exec investmentTasks 1) ++ "") := rfl
      _ = _ := by rw [String.append_empty]

/-- Witness for C5: the crew's configured three-task pipeline passes the
dependency check, and with a concrete echo agent the report task's context
is the research task's entry followed by the selection task's entry. -/
theorem pipeline_order_and_context_witness :
    depsOk investmentTasks = true ∧ 2 < investmentTasks.length ∧
    taskContext (fun i _ => toString i) investmentTasks 2 =
      contextEntry market_research_task.description
          (taskOutput (fun i _ => toString i) investmentTasks 0) ++
        contextEntry stock_selection_task.description
          (taskOutput (fun i _ => toString i) investmentTasks 1) :=
  ⟨by decide, by decide,
    (pipeline_order_and_context (fun i _ => toString i) investmentTasks 2
      (by decide) (by decide)).2.2⟩

/-- C6: the configuration-time check accepts a task list exactly when
every task's dependency list references only tasks appearing earlier in
the sequence, and a task declaring a dependency on a later-listed (or
itself-listed) task makes startup fail with `DependencyOrderError`, with
no task executed (the outcome is the same for every agent executor). -/
theorem dependency_order_validated_at_startup (tasks : List PTask) :
    (depsOk tasks = true ↔
      ∀ i, i < tasks.length → ∀ j ∈ (tasks.getD i default).deps, j < i) ∧
    (∀ i j, i < tasks.length → j ∈ (tasks.getD i default).deps → i ≤ j →
      ∀ exec, crewStart exec tasks =
        Except.error CrewConfigError.dependencyOrderError) := by
  refine ⟨depsOk_iff tasks, fun i j hi hj hij exec => ?_⟩
  have hna : ¬ depsOk tasks = true := fun h =>
    absurd ((depsOk_iff tasks).mp h i hi j hj) (Nat.not_lt.mpr hij)
  rw [crewStart, if_neg hna]

/-- Witness for C6: a two-task configuration whose first task depends on
the second is rejected with `DependencyOrderError`. -/
theorem dependency_order_validated_at_startup_witness :
    crewStart (fun _ _ => "")
        [⟨"first task", "out spec", [1]⟩, ⟨"second task", "out spec", []⟩] =
      Except.error CrewConfigError.dependencyOrderError :=
  (dependency_order_validated_at_startup
      [⟨"first task", "out spec", [1]⟩, ⟨"second task", "out spec", []⟩]).2
    0 1 (by decide) (by decide) (by decide) _

/-- C7: the reasoning loop is bounded — a budget of zero remaining rounds
fails with `ReasoningLimitExceeded` for every model, and a stub model that
always answers with a `ToolCall` (never a `FinalAnswer`) for a granted,
succeeding tool drives the loop to `ReasoningLimitExceeded` after the
configured number of rounds, for every starting transcript, rather than
looping forever (the loop is structurally recursive on the budget, so it
terminates on every input). -/
theorem reasoning_loop_bounded (tools : List MTool)
    (toolName query res : String) (tool : MTool)
    (hfind : tools.find? (fun t => t.name = toolName) = some tool)
    (hrun : tool.run query = Except.ok res) :
    (∀ model transcript,
      reasoningLoop model tools transcript 0 =
        Except.error AgentError.reasoningLimitExceeded) ∧
    (∀ rounds transcript,
      reasoningLoop (fun _ => Except.ok (LMResponse.toolCall toolName query))
          tools transcript rounds =
        Except.error AgentError.reasoningLimitExceeded) := by
  refine ⟨fun model transcript => rfl, fun rounds => ?_⟩
  induction rounds with
  | zero => exact fun transcript => rfl
  | succ n ih =>
      intro transcript
      calc
        reasoningLoop
            (fun _ => Except.ok (LMResponse.toolCall toolName query))
            tools transcript (n + 1) =
            match tools.find? (fun t => t.name = toolName) with
            | none => Except.error (AgentError.unknownToolError toolName)
            | some tl =>
                match tl.run query with
                | Except.error c => Except.error (AgentError.toolError c)
                | Except.ok r =>
                    reasoningLoop
                      (fun _ => Except.ok (LMResponse.toolCall toolName query))
                      tools (transcript ++ [r]) n := rfl
        _ = match tool.run query with
            | Except.error c => Except.error (AgentError.toolError c)
            | Except.ok r =>
                reasoningLoop
                  (fun _ => Except.ok (LMResponse.toolCall toolName query))
                  tools (transcript ++ [r]) n := by rw [hfind]
        _ = reasoningLoop
              (fun _ => Except.ok (LMResponse.toolCall toolName query))
              tools (transcript ++ [res]) n := by rw [hrun]
        _ = Except.error AgentError.reasoningLimitExceeded := ih _

/-- Witness for C7: a stub search tool granted to the agent and a stub
model that always requests it exhaust a budget of 5 rounds. -/
theorem reasoning_loop_bounded_witness :
    reasoningLoop
        (fun _ => Except.ok
          (LMResponse.toolCall "DuckDuckGo Search Tool" "X"))
        [⟨"DuckDuckGo Search Tool", fun q => Except.ok ("RESULT:" ++ q)⟩]
        [] 5 =
      Except.error AgentError.reasoningLimitExceeded :=
  (reasoning_loop_bounded
      [⟨"DuckDuckGo Search Tool", fun q => Except.ok ("RESULT:" ++ q)⟩]
      "DuckDuckGo Search Tool" "X" "RESULT:X"
      ⟨"DuckDuckGo Search Tool", fun q => Except.ok ("RESULT:" ++ q)⟩
      rfl rfl).2 5 []
